import Mathlib

/-!
Verification of the NI Linux Real-Time networking module (`salt/modules/nilrt_ip.py`).

The development shallowly embeds the module's data model and operations:
Python strings are Lean `String`s manipulated through executable helpers that
mirror the exact Python string methods used by the source (`str.split(sep)`,
`str.split()`, `str.strip()`, slicing, `str.join`); the connman daemon state and
the host interface list are explicit immutable values threaded through each
call; the INI fallback file (`/var/lib/connman/interfaces.config`) is modelled
at the parsed `configparser` level as an association list of sections, each an
association list of option/value pairs; Python exceptions become `Except`.
-/

namespace NilrtIp

/-! ## Python string primitives -/

/-- Splits a character list at every character satisfying `p`, keeping empty
segments, like Python `str.split(sep)` for a one-character separator. -/
def splitPredAux (p : Char → Bool) : List Char → List (List Char)
  | [] => [[]]
  | c :: rest =>
    let r := splitPredAux p rest
    if p c then [] :: r
    else
      match r with
      | g :: gs => (c :: g) :: gs
      | [] => [[c]]

/-- Python `s.split(sep)` for a single-character separator `c`: all empty
segments are kept, and the result always has (number of separators + 1) parts. -/
def splitChar (c : Char) (s : String) : List String :=
  (splitPredAux (fun ch => ch = c) s.data).map (fun l => ⟨l⟩)

/-- Python whitespace test used by `str.split()` / `str.strip()`. -/
def pyIsSpace (c : Char) : Bool :=
  c = ' ' ∨ c = '\t' ∨ c = '\n' ∨ c = '\r'

/-- Python `s.split()` (no separator): split on runs of whitespace and drop
the empty segments. -/
def pySplitWs (s : String) : List String :=
  ((splitPredAux pyIsSpace s.data).map (fun l => (⟨l⟩ : String))).filter (fun t => t ≠ "")

/-- Python `s.strip()`. -/
def pyStrip (s : String) : String :=
  ⟨((s.data.dropWhile pyIsSpace).reverse.dropWhile pyIsSpace).reverse⟩

/-- Python `s[:-1]` on a string. -/
def pyDropLast (s : String) : String :=
  ⟨s.data.dropLast⟩

/-- Python `''.join(s.split(c))`: removes every occurrence of character `c`. -/
def removeChar (c : Char) (s : String) : String :=
  ⟨s.data.filter (fun ch => ch ≠ c)⟩

/-- Python `','.join(l)`. -/
def joinComma (l : List String) : String :=
  match l with
  | [] => ""
  | x :: xs => xs.foldl (fun acc s => acc ++ "," ++ s) x

/-- Python `'{0}'.format(l)` for a list of strings: `['a', 'b']`. -/
def pyReprList (l : List String) : String :=
  match l.map (fun s => "'" ++ s ++ "'") with
  | [] => "[]"
  | x :: xs => "[" ++ xs.foldl (fun acc s => acc ++ ", " ++ s) x ++ "]"

/-- `needle` is a prefix of the second list. -/
def startsWithChars : List Char → List Char → Bool
  | [], _ => true
  | _ :: _, [] => false
  | n :: ns, h :: hs => n = h && startsWithChars ns hs

/-- `needle` occurs somewhere in the haystack. -/
def containsCharsAux (needle : List Char) : List Char → Bool
  | [] => needle.isEmpty
  | c :: rest => startsWithChars needle (c :: rest) || containsCharsAux needle rest

/-- The string `sub` occurs as a contiguous substring of `s`. -/
def strMentions (s sub : String) : Bool :=
  containsCharsAux sub.data s.data

/-! ## Static Store: the parsed `configparser` state of
`/var/lib/connman/interfaces.config`.

`load` semantics (src lines 240–246 and 436–442): a missing file or a
`MissingSectionHeaderError` yields an empty parser, so the model starts from
any `ConfigStore` value, the empty list standing for those tolerated cases. -/

/-- A parsed INI file: sections in file order, each with its options in order. -/
abbrev ConfigStore := List (String × List (String × String))

/-- Option lookup inside one section (`parser.get` on that section). -/
def getOpt : List (String × String) → String → Option String
  | [], _ => none
  | (k, v) :: rest, key => if k = key then some v else getOpt rest key

/-- `parser.set(section, key, value)` restricted to one section's options:
replaces the first matching key in place, else appends. -/
def setOpt : List (String × String) → String → String → List (String × String)
  | [], key, v => [(key, v)]
  | (k, w) :: rest, key, v =>
    if k = key then (key, v) :: rest else (k, w) :: setOpt rest key v

/-- The options of a named section, if present. -/
def findSection : ConfigStore → String → Option (List (String × String))
  | [], _ => none
  | (n, opts) :: rest, sec => if n = sec then some opts else findSection rest sec

/-- `parser.has_section(sec)`. -/
def hasSection (s : ConfigStore) (sec : String) : Bool :=
  (findSection s sec).isSome

/-- `parser.add_section(sec)`. -/
def addSection (s : ConfigStore) (sec : String) : ConfigStore :=
  s ++ [(sec, [])]

/-- `parser.set(sec, key, v)` over the whole store: rewrites the option list
of the named section, leaving every other section untouched. -/
def setKV : ConfigStore → String → String → String → ConfigStore
  | [], _, _, _ => []
  | (n, o) :: rest, sec, key, v =>
    if n = sec then (n, setOpt o key v) :: setKV rest sec key v
    else (n, o) :: setKV rest sec key v

/-- `parser.get(sec, key)`. -/
def cfgGet (s : ConfigStore) (sec key : String) : Option String :=
  (findSection s sec).bind (fun o => getOpt o key)

/-! ## Data model: connman services, host interfaces, call worlds -/

/-- The `IPv4` / `IPv4.Configuration` property dictionaries of a service; a
`none` field models a key absent from the D-Bus dictionary (`dict[key]`
raises `KeyError`). -/
structure Ipv4Props where
  method : Option String := none
  address : Option String := none
  netmask : Option String := none
  gateway : Option String := none
deriving DecidableEq

/-- The `IPv6` property dictionary of a service. -/
structure Ipv6Props where
  address : Option String := none
  pfx : Option String := none
  gateway : Option String := none
deriving DecidableEq

/-- Outcome of a daemon call (`service.connect()` / `service.disconnect()`):
either a returned value (`isNull` records whether it is Python `None`) or a
raised exception. -/
inductive CallOutcome where
  | ret (isNull : Bool)
  | exn (msg : String)
deriving DecidableEq

/-- The property set of one connman service, as read over D-Bus. -/
structure ServiceProps where
  typ : String := "ethernet"
  ethInterface : String := ""
  ethAddress : String := ""
  state : String := "idle"
  ipv4 : Ipv4Props := {}
  ipv4Configuration : Ipv4Props := {}
  ipv6 : Ipv6Props := {}
  nameservers : List String := []
  nameserversConfiguration : List String := []
deriving DecidableEq

/-- One connman service: its short identifier (the object path with the
`/net/connman/service/` prefix stripped), its properties, and the outcomes its
`connect`/`disconnect` calls would produce. -/
structure Service where
  name : String
  props : ServiceProps := {}
  connectOutcome : CallOutcome := .ret true
  disconnectOutcome : CallOutcome := .ret true
deriving DecidableEq

/-- One host interface as enumerated by `pyiface.getIfaces()`: name, raw
hardware-address string (the source always strips its last character with
`hwaddr[:-1]`), and interface flags. -/
structure Iface where
  name : String
  hwaddr : String
  flags : Nat := 0
deriving DecidableEq

/-- The daemon-plus-host environment a call observes: the connman service
list (in daemon enumeration order) and the host interface list. Immutable
within one call — the source performs blocking synchronous reads with no
concurrency (spec section 5). -/
structure Daemon where
  services : List Service := []
  hostIfaces : List Iface := []
deriving DecidableEq

/-- The mutable world of a Reconciler call: daemon state plus the parsed
Static Store file. -/
structure World where
  daemon : Daemon
  store : ConfigStore := []
deriving DecidableEq

/-! ## Read model: the canonical InterfaceInfo record -/

/-- The `data['ipv4']` sub-dictionary of an InterfaceInfo; `none` models an
absent key. -/
structure Ipv4Block where
  requestmode : Option String := none
  address : Option String := none
  netmask : Option String := none
  gateway : Option String := none
  dns : Option (List String) := none
  supportedrequestmodes : Option (List String) := none
deriving DecidableEq

/-- The `data['ipv6']` sub-dictionary; values are stored as singleton lists
(`[six.text_type(value)]`, src line 196). -/
structure Ipv6Block where
  address : Option (List String) := none
  pfx : Option (List String) := none
  gateway : Option (List String) := none
deriving DecidableEq

/-- The canonical interface-info dictionary built by the read paths.
`ipv4 = none` / `ipv6 = none` model the keys being absent from `data`. -/
structure InterfaceInfo where
  label : String
  connectionid : String
  hwaddr : String
  wireless : Bool
  up : Bool
  ipv4 : Option Ipv4Block := none
  ipv6 : Option Ipv6Block := none
deriving DecidableEq

/-! ## Validator -/

/-- Modelled from the spec: `salt.utils.validate.net.ipv4_addr` is a salt
utility that is not under `src/`; the spec (section 4.1) only requires an
"address-form" check. Modelled as a dotted quad of four nonempty decimal
octets, each at most 255 and at most three digits. -/
def validate_net_ipv4_addr (s : String) : Bool :=
  let parts := splitChar '.' s
  parts.length = 4 &&
    parts.all (fun p =>
      p ≠ "" && p.data.all Char.isDigit && p.data.length ≤ 3 &&
        p.data.foldl (fun a c => a * 10 + (c.toNat - 48)) 0 ≤ 255)

/-- Modelled from the spec: `salt.utils.validate.net.netmask` is a salt
utility that is not under `src/`; the spec (section 4.1) only requires a
"netmask-form" check. Modelled as a dotted quad whose 32-bit value consists of
`k` leading one bits followed by zero bits, for some `0 ≤ k ≤ 32`. -/
def validate_net_netmask (s : String) : Bool :=
  let parts := splitChar '.' s
  parts.length = 4 &&
    parts.all (fun p => p ≠ "" && p.data.all Char.isDigit && p.data.length ≤ 3) &&
    (let v := (parts.map (fun p => p.data.foldl (fun a c => a * 10 + (c.toNat - 48)) 0)).foldl
        (fun a o => a * 256 + o) 0
     (List.range 33).any (fun k => v = 4294967296 - 2 ^ (32 - k)))

/-- `_validate_ipv4` (src lines 130–143): requires exactly three elements and
checks address / netmask / gateway forms in that order, returning the first
failure's message, or the generic `Invalid value` message when the list does
not have exactly three elements. -/
def _validate_ipv4 (value : List String) : Bool × String :=
  match value with
  | [a, n, g] =>
    if ¬ validate_net_ipv4_addr (pyStrip a) then
      (false, "Invalid ip address: " ++ a ++ " for ipv4 option")
    else if ¬ validate_net_netmask (pyStrip n) then
      (false, "Invalid netmask: " ++ n ++ " for ipv4 option")
    else if ¬ validate_net_ipv4_addr (pyStrip g) then
      (false, "Invalid gateway: " ++ g ++ " for ipv4 option")
    else (true, "")
  | _ => (false, "Invalid value: " ++ pyReprList value ++ " for ipv4 option")

/-- A nameserver argument: either an already-structured Python list or a raw
string. -/
inductive NsValue where
  | str (s : String)
  | list (l : List String)
deriving DecidableEq

/-- Python truthiness of a nameserver argument (`if nameservers:`). -/
def nsTruthy : NsValue → Bool
  | .str s => s ≠ ""
  | .list l => ¬ l.isEmpty

/-- Python `'{0}'.format(value)` for a nameserver argument. -/
def nsRepr : NsValue → String
  | .str s => s
  | .list l => pyReprList l

/-- `_space_delimited_list` (src lines 110–127). On the Python 2 runtime this
six-based module targets, a plain `str` has no `__iter__` attribute, so a list
argument takes the `hasattr(value, '__iter__')` branch and is immediately
valid, while a string argument is split on whitespace (`value.split()`), the
empty split raising `ValueError` which produces the invalid-list message. -/
def _space_delimited_list (value : NsValue) : Bool × String :=
  match value with
  | .list _ => (true, "space-delimited string")
  | .str s =>
    if pySplitWs s = [] then (false, nsRepr value ++ " is not a valid list.\n")
    else (true, "space-delimited string")

/-! ## Service Directory -/

/-- `_interface_to_service` (src lines 146–154): first service whose
`Ethernet.Interface` property equals the interface name, else `None`. -/
def _interface_to_service (d : Daemon) (iface : String) : Option String :=
  (d.services.find? (fun s => s.props.ethInterface = iface)).map (fun s => s.name)

/-- Looking up a service object by its short identifier
(`pyconnman.ConnService(_add_path(service))` followed by property reads). -/
def getService (d : Daemon) (name : String) : Option Service :=
  d.services.find? (fun s => s.name = name)

/-- `_connected` (src lines 102–107) applied to the resolved service object:
its `State` is `online` or `ready`. -/
def _connected (svc : Service) : Bool :=
  svc.props.state = "online" ∨ svc.props.state = "ready"

/-- Python falsiness of the `service` variable (`if not service:`): `None` or
the empty string. -/
def pyFalsyStr : Option String → Bool
  | none => true
  | some s => s = ""

/-! ## State Normalizer -/

/-- The Method translation of src lines 182–187: `dhcp` becomes
`dhcp_linklocal`, `manual` and `fixed` become `static`, and any other value
passes through unchanged (no `else` clause in the source). -/
def translateMethod (value : String) : String :=
  if value = "dhcp" then "dhcp_linklocal"
  else if value = "manual" ∨ value = "fixed" then "static"
  else value

/-- The IPv4 property dictionary the loop of src lines 175–178 actually reads:
`IPv4.Configuration` when the live `IPv4` dictionary's `Method` is `manual`,
otherwise `IPv4` itself. -/
def effectiveIpv4Props (p : ServiceProps) : Ipv4Props :=
  if p.ipv4.method = some "manual" then p.ipv4Configuration else p.ipv4

/-- One iteration of the IPv6 loop (src lines 193–198), executing
`data['ipv6'][info.lower()] = [six.text_type(value)]` inside `try/except`:
when the property is absent, `ipv6Info[info]` raises `KeyError`, caught and
logged (the `value = none` case); when it is present, the assignment target
`data['ipv6']` itself raises `KeyError`, because no `'ipv6'` key was ever
initialized in `data`, and that exception is caught by the same handler (the
`cur = none` case) — so an absent container stays absent. -/
def ipv6Assign (cur : Option Ipv6Block) (value : Option String)
    (set : Ipv6Block → List String → Ipv6Block) : Option Ipv6Block :=
  match value, cur with
  | none, _ => cur
  | some _, none => cur
  | some v, some b => some (set b [v])

/-- `_get_service_info` (src lines 157–212). The uncaught lookup
`service_info.get_property('IPv4')['Method']` at line 176 raises `KeyError`
when the live `IPv4` dictionary has no `Method` key, failing the whole read;
every per-field lookup inside the loops is wrapped in `try/except` and a
missing field is logged and skipped. In the ready/online branch the `ipv4`
dictionary is pre-initialized to `{'gateway': '0.0.0.0'}` (lines 172–174), so
its `gateway` key survives even when the property set has no `Gateway`;
`dns` is always set from `Nameservers` (lines 200–203) and
`supportedrequestmodes` is injected because `'ipv4' in data` (lines 207–211).
In the not-ready branch only `up = False` is set and no `ipv4` key exists, so
the injection at lines 207–211 is skipped. -/
def _get_service_info (svc : Service) : Except String InterfaceInfo :=
  let p := svc.props
  let base : InterfaceInfo :=
    { label := svc.name
      wireless := p.typ = "wifi"
      connectionid := p.ethInterface
      hwaddr := p.ethAddress
      up := false }
  if p.state = "ready" ∨ p.state = "online" then
    match p.ipv4.method with
    | none => Except.error "KeyError: 'Method'"
    | some _ =>
      let ipv4Info := effectiveIpv4Props p
      let blk : Ipv4Block :=
        { requestmode := ipv4Info.method.map translateMethod
          address := ipv4Info.address
          netmask := ipv4Info.netmask
          gateway := some (ipv4Info.gateway.getD "0.0.0.0")
          dns := some p.nameservers
          supportedrequestmodes := some ["static", "dhcp_linklocal"] }
      let ipv6blk : Option Ipv6Block := none
      let ipv6blk := ipv6Assign ipv6blk p.ipv6.address
        (fun b v => { b with address := some v })
      let ipv6blk := ipv6Assign ipv6blk p.ipv6.pfx
        (fun b v => { b with pfx := some v })
      let ipv6blk := ipv6Assign ipv6blk p.ipv6.gateway
        (fun b v => { b with gateway := some v })
      Except.ok { base with up := true, ipv4 := some blk, ipv6 := ipv6blk }
  else
    Except.ok base

/-- The Static Store section id for an interface: `interface_` followed by the
hardware address with its trailing character sliced off (`hwaddr[:-1]`) and
the colons removed (`''.join(hwaddr.split(':'))`) — src lines 258–259 and
443–444. -/
def staticSection (ifc : Iface) : String :=
  "interface_" ++ removeChar ':' (pyDropLast ifc.hwaddr)

/-- `_get_static_info` (src lines 234–265) over an already-parsed store.
Builds the default record (`up = False`, `requestmode = 'static'`, no address
fields) and, when the derived section exists, splits the stored compound
`IPv4` value on `/` and the `Nameservers` value on `,`. A section missing the
`IPv4` or `Nameservers` option raises `NoOptionError` (uncaught), and a
compound value with fewer than three `/`-separated parts raises `IndexError`
at `ipv4_information[1]`/`[2]` (uncaught). -/
def _get_static_info (store : ConfigStore) (ifc : Iface) : Except String InterfaceInfo :=
  let hw := pyDropLast ifc.hwaddr
  let base : InterfaceInfo :=
    { connectionid := ifc.name
      label := ifc.name
      hwaddr := hw
      up := false
      wireless := false
      ipv4 := some
        { supportedrequestmodes := some ["static", "dhcp_linklocal"]
          requestmode := some "static" } }
  let sec := "interface_" ++ removeChar ':' hw
  if hasSection store sec then
    match cfgGet store sec "IPv4", cfgGet store sec "Nameservers" with
    | some ipv4s, some ns =>
      match splitChar '/' ipv4s with
      | a :: n :: g :: _ =>
        let blk : Ipv4Block :=
          { supportedrequestmodes := some ["static", "dhcp_linklocal"]
            requestmode := some "static"
            address := some a
            dns := some (splitChar ',' ns)
            netmask := some n
            gateway := some g }
        Except.ok { base with ipv4 := some blk }
      | _ => Except.error "IndexError: list index out of range"
    | _, _ => Except.error "NoOptionError"
  else
    Except.ok base

/-! ## Static Store upsert and the Reconciler -/

/-- The keyword settings accepted by `_configure_static_interface`. -/
structure StaticSettings where
  ip : Option String := none
  netmask : Option String := none
  gateway : Option String := none
  dns : Option String := none
  name : Option String := none
deriving DecidableEq

/-- `_configure_static_interface` (src lines 421–460) over an already-parsed
store; the source receives the interface name and rebinds it to the
`pyiface.Interface` object, modelled here by passing the resolved host
interface record directly. Creates the derived section if absent, overwrites
the five options (`IPv4` as the compound `ip/netmask/gateway`, `Nameservers`,
`Name` defaulting to `ethernet_cable_<section>`, `MAC`, `Type`), and the
whole parsed store is then serialized back to the file (lines 458–459) —
returning the new store models that rewrite. -/
def _configure_static_interface (ifc : Iface) (settings : StaticSettings)
    (store : ConfigStore) : ConfigStore :=
  let hw := pyDropLast ifc.hwaddr
  let secNum := removeChar ':' hw
  let sec := "interface_" ++ secNum
  let store := if hasSection store sec then store else addSection store sec
  let ip := settings.ip.getD "0.0.0.0"
  let nmask := settings.netmask.getD "0.0.0.0"
  let gw := settings.gateway.getD "0.0.0.0"
  let dns := settings.dns.getD ""
  let nm := settings.name.getD ("ethernet_cable_" ++ secNum)
  let store := setKV store sec "IPv4" (ip ++ "/" ++ nmask ++ "/" ++ gw)
  let store := setKV store sec "Nameservers" dns
  let store := setKV store sec "Name" nm
  let store := setKV store sec "MAC" hw
  let store := setKV store sec "Type" "ethernet"
  store

/-- `up` (src lines 302–326). The pair's second component records whether a
`service.connect()` call was issued. A resolution failure (or a falsy service
name) raises `Invalid interface name`; an already-connected service returns
`True` with no daemon call; otherwise the connect outcome decides: a returned
value succeeds exactly when it is `None` (`return state is None`), and an
exception is re-raised as a daemon error. -/
def up (d : Daemon) (interface : String) : Except String Bool × Bool :=
  let service := _interface_to_service d interface
  if pyFalsyStr service then
    (Except.error ("Invalid interface name: " ++ interface), false)
  else
    match getService d (service.getD "") with
    | none => (Except.error "DBus error: unknown service", false)
    | some svc =>
      if ¬ _connected svc then
        match svc.connectOutcome with
        | .ret isNull => (Except.ok isNull, true)
        | .exn _ =>
          (Except.error ("Couldn't enable service: " ++ service.getD "" ++ "\n"), true)
      else (Except.ok true, false)

/-- `down` (src lines 346–370), symmetric to `up`: the second component
records whether a `service.disconnect()` call was issued; the call is issued
exactly when the service is connected, and a returned value succeeds exactly
when it is `None`. -/
def down (d : Daemon) (interface : String) : Except String Bool × Bool :=
  let service := _interface_to_service d interface
  if pyFalsyStr service then
    (Except.error ("Invalid interface name: " ++ interface), false)
  else
    match getService d (service.getD "") with
    | none => (Except.error "DBus error: unknown service", false)
    | some svc =>
      if _connected svc then
        match svc.disconnectOutcome with
        | .ret isNull => (Except.ok isNull, true)
        | .exn _ =>
          (Except.error ("Couldn't disable service: " ++ service.getD "" ++ "\n"), true)
      else (Except.ok true, false)

/-- `set_static_all` (src lines 463–511). The call first resolves the
interface (lines 481–483) and raises `Invalid interface name` when no live
service resolves — before the validation and before the static-store fallback
further down can run. It then validates the IPv4 triple (484–486) and, when
the nameserver argument is truthy, validates and normalizes it to a list by
splitting on single spaces (487–492). The second resolution (line 493)
observes the same daemon state, so its fallback branch (495–498, upserting
the Static Store when the interface is a host interface) is unreachable;
the live branch (499–511) overwrites the service's `IPv4.Configuration` with
`manual` plus the triple and, when nameservers were given, replaces
`Nameservers.Configuration`. The returned `World` is the state after the
call, unchanged whenever an error is raised before a mutation. -/
def set_static_all (w : World) (interface address nmask gateway : String)
    (nameservers : NsValue) : Except String Bool × World :=
  let service0 := _interface_to_service w.daemon interface
  if pyFalsyStr service0 then
    (Except.error ("Invalid interface name: " ++ interface), w)
  else
    let v := _validate_ipv4 [address, nmask, gateway]
    if ¬ v.1 then (Except.error v.2, w)
    else
      let nsres : Except String (List String) :=
        if nsTruthy nameservers then
          let sv := _space_delimited_list nameservers
          if ¬ sv.1 then Except.error sv.2
          else
            match nameservers with
            | .list l => Except.ok l
            | .str s => Except.ok (splitChar ' ' s)
        else Except.ok (match nameservers with | .list l => l | .str _ => [])
      match nsres with
      | .error msg => (Except.error msg, w)
      | .ok nsList =>
        let service := _interface_to_service w.daemon interface
        if pyFalsyStr service then
          -- lines 495–498: `if interface in pyiface.getIfaces():` — modelled
          -- charitably as name membership (the Python expression compares the
          -- name string against `Interface` objects); the branch is
          -- unreachable either way because the daemon state did not change
          -- between the two resolutions.
          match w.daemon.hostIfaces.find? (fun i => i.name = interface) with
          | some ifc =>
            let settings : StaticSettings :=
              { ip := some address
                dns := some (joinComma nsList)
                netmask := some nmask
                gateway := some gateway }
            (Except.ok true, { w with store := _configure_static_interface ifc settings w.store })
          | none => (Except.error ("Invalid interface name: " ++ interface), w)
        else
          match getService w.daemon (service.getD "") with
          | none => (Except.error "DBus error: unknown service", w)
          | some svc =>
            let newProps : ServiceProps :=
              { svc.props with
                ipv4Configuration :=
                  { method := some "manual"
                    address := some address
                    netmask := some nmask
                    gateway := some gateway }
                nameserversConfiguration :=
                  if nsList ≠ [] then nsList else svc.props.nameserversConfiguration }
            let services' := w.daemon.services.map
              (fun s => if s.name = svc.name then { s with props := newProps } else s)
            let daemon' : Daemon := { w.daemon with services := services' }
            (Except.ok true, { w with daemon := daemon' })

/-! ## Concrete fixtures used by witnesses and counterexamples -/

/-- A host interface `eth1`; `pyiface` hardware-address strings carry a
trailing character that the source strips with `hwaddr[:-1]`. -/
def ifaceEth1 : Iface := { name := "eth1", hwaddr := "aa:bb:cc:dd:ee:01x" }

/-- A world with no connman services at all but with `eth1` present on the
host: the exact situation in which the spec expects the Static Store
fallback to apply. -/
def worldNoService : World :=
  { daemon := { services := [], hostIfaces := [ifaceEth1] } }

/-- A live service bound to `eth0`, in DHCP mode, online. -/
def svcEth0 : Service :=
  { name := "ethernet_svc0"
    props := { ethInterface := "eth0", ethAddress := "aa:bb:cc:dd:ee:00", state := "online",
               ipv4 := { method := some "dhcp" } } }

/-- A world with the single live service `svcEth0`. -/
def worldLive : World := { daemon := { services := [svcEth0] } }

/-- The daemon of `worldLive`, used by the up/down witness. -/
def daemonLive : Daemon := { services := [svcEth0] }

/-- A service in state `idle` (neither ready nor online). -/
def svcIdle : Service := { name := "svc_idle", props := { ethInterface := "eth3", state := "idle" } }

/-- The InterfaceInfo `_get_service_info` computes for `svcIdle`. -/
def infoIdle : InterfaceInfo :=
  { label := "svc_idle", connectionid := "eth3", hwaddr := "", wireless := false, up := false }

/-- The InterfaceInfo `_get_static_info` computes for `ifaceEth1` on an empty
store: the default static record. -/
def infoStaticDefault : InterfaceInfo :=
  { connectionid := "eth1", label := "eth1", hwaddr := "aa:bb:cc:dd:ee:01",
    up := false, wireless := false,
    ipv4 := some { supportedrequestmodes := some ["static", "dhcp_linklocal"]
                   requestmode := some "static" } }

/-- The ipv4 block `_get_service_info` computes for `svcEth0`. -/
def blkEth0 : Ipv4Block :=
  { requestmode := some "dhcp_linklocal", gateway := some "0.0.0.0", dns := some []
    supportedrequestmodes := some ["static", "dhcp_linklocal"] }

/-- The InterfaceInfo `_get_service_info` computes for `svcEth0`. -/
def infoEth0 : InterfaceInfo :=
  { label := "ethernet_svc0", connectionid := "eth0", hwaddr := "aa:bb:cc:dd:ee:00",
    wireless := false, up := true, ipv4 := some blkEth0 }

/-- A ready service whose IPv4 `Method` is `off`. -/
def svcMethodOff : Service :=
  { name := "svc_off"
    props := { ethInterface := "eth4", state := "ready", ipv4 := { method := some "off" } } }

/-- The property set of a ready service exposing an IPv6 `Address`. -/
def propsIpv6 : ServiceProps :=
  { ethInterface := "eth5", state := "ready", ipv4 := { method := some "dhcp" }
    ipv6 := { address := some "fe80::1" } }

/-- A ready service exposing an IPv6 `Address` property. -/
def svcIpv6 : Service :=
  { name := "svc_six", props := propsIpv6 }

/-- The InterfaceInfo `_get_service_info` computes for `svcIpv6`: note the
absent `ipv6` block despite the present IPv6 `Address` property. -/
def infoIpv6 : InterfaceInfo :=
  { label := "svc_six", connectionid := "eth5", hwaddr := "", wireless := false, up := true
    ipv4 := some { requestmode := some "dhcp_linklocal", gateway := some "0.0.0.0"
                   dns := some [], supportedrequestmodes := some ["static", "dhcp_linklocal"] } }

/-! ## Static Store lemmas -/

theorem getOpt_setOpt_self (o : List (String × String)) (k v : String) :
    getOpt (setOpt o k v) k = some v := by
  induction o with
  | nil => simp [setOpt, getOpt]
  | cons p rest ih =>
    obtain ⟨k1, v1⟩ := p
    by_cases h : k1 = k
    · simp [setOpt, h, getOpt]
    · simp [setOpt, h, getOpt, ih]

theorem getOpt_setOpt_other (o : List (String × String)) (k k' v : String) (h : k ≠ k') :
    getOpt (setOpt o k' v) k = getOpt o k := by
  induction o with
  | nil => simp [setOpt, getOpt, Ne.symm h]
  | cons p rest ih =>
    obtain ⟨k1, v1⟩ := p
    by_cases h1 : k1 = k'
    · subst h1
      simp [setOpt, getOpt, Ne.symm h, h]
    · simp [setOpt, h1, getOpt, ih]

theorem findSection_setKV_self (s : ConfigStore) (sec k v : String) :
    findSection (setKV s sec k v) sec = (findSection s sec).map (fun o => setOpt o k v) := by
  induction s with
  | nil => simp [setKV, findSection]
  | cons p rest ih =>
    obtain ⟨n, o⟩ := p
    by_cases h : n = sec
    · simp [setKV, findSection, h]
    · simp [setKV, findSection, h, ih]

theorem findSection_setKV_other (s : ConfigStore) (sec B k v : String) (h : B ≠ sec) :
    findSection (setKV s sec k v) B = findSection s B := by
  induction s with
  | nil => simp [setKV, findSection]
  | cons p rest ih =>
    obtain ⟨n, o⟩ := p
    by_cases h1 : n = sec
    · subst h1
      simp [setKV, findSection, Ne.symm h, ih]
    · by_cases h2 : n = B
      · simp [setKV, findSection, h1, h2, h]
      · simp [setKV, findSection, h1, h2, ih]

theorem findSection_append_other (s : ConfigStore) (sec B : String)
    (opts : List (String × String)) (h : B ≠ sec) :
    findSection (s ++ [(sec, opts)]) B = findSection s B := by
  induction s with
  | nil => simp [findSection, Ne.symm h]
  | cons p rest ih =>
    obtain ⟨n, o⟩ := p
    by_cases h1 : n = B
    · simp [findSection, h1]
    · simpa [findSection, h1] using ih

theorem findSection_append_self (s : ConfigStore) (sec : String)
    (opts : List (String × String)) (h : findSection s sec = none) :
    findSection (s ++ [(sec, opts)]) sec = some opts := by
  induction s with
  | nil => simp [findSection]
  | cons p rest ih =>
    obtain ⟨n, o⟩ := p
    by_cases h1 : n = sec
    · simp [findSection, h1] at h
    · simp [findSection, h1] at h ⊢
      exact ih h

theorem findSection_ensure_self (s : ConfigStore) (sec : String) :
    ∃ o, findSection (if hasSection s sec then s else addSection s sec) sec = some o := by
  by_cases h : hasSection s sec
  · simp only [h, if_true]
    unfold hasSection at h
    exact Option.isSome_iff_exists.mp h
  · simp only [h, if_false, Bool.false_eq_true, addSection]
    unfold hasSection at h
    have hn : findSection s sec = none := by
      cases hf : findSection s sec with
      | none => rfl
      | some o => rw [hf] at h; simp at h
    exact ⟨[], findSection_append_self s sec [] hn⟩

theorem findSection_ensure_other (s : ConfigStore) (sec B : String) (h : B ≠ sec) :
    findSection (if hasSection s sec then s else addSection s sec) B = findSection s B := by
  by_cases h1 : hasSection s sec
  · simp [h1]
  · simp only [h1, if_false, Bool.false_eq_true, addSection]
    exact findSection_append_other s sec B [] h

/-- C5: upserting one interface's section never changes the stored contents of
any other section of the Static Store — the whole-file rewrite of
`_configure_static_interface` is section-isolated. -/
theorem upsert_section_isolated (store : ConfigStore) (ifc : Iface)
    (settings : StaticSettings) (B : String) (hB : B ≠ staticSection ifc) :
    findSection (_configure_static_interface ifc settings store) B = findSection store B := by
  simp only [staticSection] at hB
  simp only [_configure_static_interface]
  rw [findSection_setKV_other _ _ _ _ _ hB, findSection_setKV_other _ _ _ _ _ hB,
    findSection_setKV_other _ _ _ _ _ hB, findSection_setKV_other _ _ _ _ _ hB,
    findSection_setKV_other _ _ _ _ _ hB, findSection_ensure_other _ _ _ hB]

/-- C5 witness: concrete instantiation on a store holding an unrelated
section. -/
theorem upsert_section_isolated_witness :
    findSection
      (_configure_static_interface { name := "eth1", hwaddr := "aa:bb:cc:dd:ee:01x" }
        { ip := some "10.0.0.5" }
        [("interface_000000000000", [("IPv4", "1.2.3.4/255.0.0.0/1.2.3.1")])])
      "interface_000000000000" =
    findSection [("interface_000000000000", [("IPv4", "1.2.3.4/255.0.0.0/1.2.3.1")])]
      "interface_000000000000" :=
  upsert_section_isolated _ _ _ _ (by decide)

/-- The options stored for a section after the five `parser.set` calls of
`_configure_static_interface`, given the section's options before them. -/
theorem findSection_after_upsert (store : ConfigStore) (ifc : Iface)
    (settings : StaticSettings) (o : List (String × String))
    (ho : findSection (if hasSection store (staticSection ifc) then store
            else addSection store (staticSection ifc)) (staticSection ifc) = some o) :
    findSection (_configure_static_interface ifc settings store) (staticSection ifc) =
      some (setOpt (setOpt (setOpt (setOpt (setOpt o
        "IPv4" (settings.ip.getD "0.0.0.0" ++ "/" ++ settings.netmask.getD "0.0.0.0"
          ++ "/" ++ settings.gateway.getD "0.0.0.0"))
        "Nameservers" (settings.dns.getD ""))
        "Name" (settings.name.getD
          ("ethernet_cable_" ++ removeChar ':' (pyDropLast ifc.hwaddr))))
        "MAC" (pyDropLast ifc.hwaddr))
        "Type" "ethernet") := by
  simp only [staticSection] at ho ⊢
  simp only [_configure_static_interface, findSection_setKV_self, ho, Option.map_some']

/-- C6: upserting address `10.0.0.5`, netmask `255.255.255.0`, gateway
`10.0.0.1` and nameservers `8.8.8.8,8.8.4.4` into any store and then reading
the same interface back through `_get_static_info` splits the stored compound
`IPv4` field and the comma-joined `Nameservers` field into
address/netmask/gateway and the dns list. -/
theorem upsert_get_roundtrip (store : ConfigStore) (ifc : Iface) :
    ∃ i blk,
      _get_static_info
        (_configure_static_interface ifc
          { ip := some "10.0.0.5", netmask := some "255.255.255.0",
            gateway := some "10.0.0.1", dns := some "8.8.8.8,8.8.4.4" } store) ifc =
        Except.ok i ∧
      i.ipv4 = some blk ∧
      blk.address = some "10.0.0.5" ∧ blk.netmask = some "255.255.255.0" ∧
      blk.gateway = some "10.0.0.1" ∧ blk.dns = some ["8.8.8.8", "8.8.4.4"] := by
  obtain ⟨o, ho⟩ := findSection_ensure_self store (staticSection ifc)
  have hsec := findSection_after_upsert store ifc
    { ip := some "10.0.0.5", netmask := some "255.255.255.0",
      gateway := some "10.0.0.1", dns := some "8.8.8.8,8.8.4.4" } o ho
  have hIPv4 : cfgGet (_configure_static_interface ifc
      { ip := some "10.0.0.5", netmask := some "255.255.255.0",
        gateway := some "10.0.0.1", dns := some "8.8.8.8,8.8.4.4" } store)
      (staticSection ifc) "IPv4" = some "10.0.0.5/255.255.255.0/10.0.0.1" := by
    simp only [cfgGet, hsec, Option.some_bind, Option.getD_some, Option.getD_none]
    rw [getOpt_setOpt_other _ "IPv4" "Type" _ (by decide),
      getOpt_setOpt_other _ "IPv4" "MAC" _ (by decide),
      getOpt_setOpt_other _ "IPv4" "Name" _ (by decide),
      getOpt_setOpt_other _ "IPv4" "Nameservers" _ (by decide),
      getOpt_setOpt_self]
    rfl
  have hNs : cfgGet (_configure_static_interface ifc
      { ip := some "10.0.0.5", netmask := some "255.255.255.0",
        gateway := some "10.0.0.1", dns := some "8.8.8.8,8.8.4.4" } store)
      (staticSection ifc) "Nameservers" = some "8.8.8.8,8.8.4.4" := by
    simp only [cfgGet, hsec, Option.some_bind, Option.getD_some, Option.getD_none]
    rw [getOpt_setOpt_other _ "Nameservers" "Type" _ (by decide),
      getOpt_setOpt_other _ "Nameservers" "MAC" _ (by decide),
      getOpt_setOpt_other _ "Nameservers" "Name" _ (by decide),
      getOpt_setOpt_self]
  have hHas : hasSection (_configure_static_interface ifc
      { ip := some "10.0.0.5", netmask := some "255.255.255.0",
        gateway := some "10.0.0.1", dns := some "8.8.8.8,8.8.4.4" } store)
      (staticSection ifc) = true := by
    simp only [hasSection, hsec, Option.isSome_some]
  have hres : _get_static_info (_configure_static_interface ifc
      { ip := some "10.0.0.5", netmask := some "255.255.255.0",
        gateway := some "10.0.0.1", dns := some "8.8.8.8,8.8.4.4" } store) ifc =
      Except.ok
        { connectionid := ifc.name, label := ifc.name, hwaddr := pyDropLast ifc.hwaddr,
          up := false, wireless := false,
          ipv4 := some
            { supportedrequestmodes := some ["static", "dhcp_linklocal"]
              requestmode := some "static"
              address := some "10.0.0.5"
              dns := some ["8.8.8.8", "8.8.4.4"]
              netmask := some "255.255.255.0"
              gateway := some "10.0.0.1" } } := by
    simp only [staticSection] at hIPv4 hNs hHas
    simp only [_get_static_info, hHas, if_true, hIPv4, hNs]
    have hsplit : splitChar '/' "10.0.0.5/255.255.255.0/10.0.0.1" =
        ["10.0.0.5", "255.255.255.0", "10.0.0.1"] := by decide
    have hsplit2 : splitChar ',' "8.8.8.8,8.8.4.4" = ["8.8.8.8", "8.8.4.4"] := by decide
    rw [hsplit, hsplit2]
  exact ⟨_, _, hres, rfl, rfl, rfl, rfl, rfl⟩

/-! ## Reconciler claims -/

/-- C1: whenever no live service resolves for the interface, `set_static_all`
raises `Invalid interface name` already at entry (src lines 481–483) and
changes nothing — even when the interface exists on the host — so the Static
Store fallback of src lines 495–498 can never run. -/
theorem set_static_no_service_raises (w : World) (i a n g : String) (ns : NsValue)
    (h : _interface_to_service w.daemon i = none) :
    set_static_all w i a n g ns = (Except.error ("Invalid interface name: " ++ i), w) := by
  simp [set_static_all, h, pyFalsyStr]

/-- C1 witness: `eth1` exists on the host, no service resolves, and the
triple is fully valid — yet the call fails with `Invalid interface name` and
the world (in particular the Static Store) is unchanged. -/
theorem set_static_no_service_raises_witness :
    set_static_all worldNoService "eth1" "10.0.0.5" "255.255.255.0" "10.0.0.1"
        (NsValue.list []) =
      (Except.error ("Invalid interface name: " ++ "eth1"), worldNoService) :=
  set_static_no_service_raises worldNoService "eth1" "10.0.0.5" "255.255.255.0" "10.0.0.1"
    (NsValue.list []) rfl

/-- C2 counterexample: `_validate_ipv4` applied to a 2-element triple returns
the generic `Invalid value` message, which does not mention the gateway field
at all — the claimed error naming the missing gateway does not exist in the
code. -/
theorem two_element_triple_generic_message :
    _validate_ipv4 ["10.0.0.5", "255.255.255.0"] =
      (false, "Invalid value: ['10.0.0.5', '255.255.255.0'] for ipv4 option") ∧
    strMentions (_validate_ipv4 ["10.0.0.5", "255.255.255.0"]).2 "gateway" = false :=
  ⟨rfl, by decide⟩

/-- C2 amended: when the interface resolves and the IPv4 triple fails
validation, `set_static_all` raises exactly the validator's message and
performs no mutation — the returned world is the input world, so neither the
Static Store nor any daemon property changed. (The validator's message for a
wrongly-shaped triple is the generic `Invalid value: ... for ipv4 option`
message, not one naming the missing gateway; and a 2-element triple cannot
even arise through `set_static_all`, which always builds the 3-element list
`[address, netmask, gateway]`.) -/
theorem set_static_invalid_input_no_mutation (w : World) (i a n g : String) (ns : NsValue)
    (svcName : String) (h1 : _interface_to_service w.daemon i = some svcName)
    (h2 : svcName ≠ "") (h3 : (_validate_ipv4 [a, n, g]).1 = false) :
    set_static_all w i a n g ns = (Except.error (_validate_ipv4 [a, n, g]).2, w) := by
  simp [set_static_all, h1, pyFalsyStr, h2, h3]

/-- C2 witness: a malformed address makes `set_static_all` fail with the
validator's message and leave the world untouched. -/
theorem set_static_invalid_input_no_mutation_witness :
    set_static_all worldLive "eth0" "not-an-ip" "255.255.255.0" "10.0.0.1"
        (NsValue.list []) =
      (Except.error (_validate_ipv4 ["not-an-ip", "255.255.255.0", "10.0.0.1"]).2, worldLive) :=
  set_static_invalid_input_no_mutation worldLive "eth0" "not-an-ip" "255.255.255.0" "10.0.0.1"
    (NsValue.list []) "ethernet_svc0" rfl (by decide) (by decide)

/-! ## State Normalizer lemmas and claims -/

theorem ipv6Assign_none (value : Option String) (f : Ipv6Block → List String → Ipv6Block) :
    ipv6Assign none value f = none := by
  cases value <;> rfl

/-- Characterization of `_get_service_info` on a ready/online service whose
live `IPv4` dictionary has a `Method` key. -/
theorem get_service_info_ready (svc : Service) (m0 : String)
    (hstate : svc.props.state = "ready" ∨ svc.props.state = "online")
    (hm : svc.props.ipv4.method = some m0) :
    _get_service_info svc = Except.ok
      { label := svc.name
        wireless := decide (svc.props.typ = "wifi")
        connectionid := svc.props.ethInterface
        hwaddr := svc.props.ethAddress
        up := true
        ipv4 := some
          { requestmode := (effectiveIpv4Props svc.props).method.map translateMethod
            address := (effectiveIpv4Props svc.props).address
            netmask := (effectiveIpv4Props svc.props).netmask
            gateway := some ((effectiveIpv4Props svc.props).gateway.getD "0.0.0.0")
            dns := some svc.props.nameservers
            supportedrequestmodes := some ["static", "dhcp_linklocal"] }
        ipv6 := none } := by
  simp only [_get_service_info]
  rw [if_pos hstate, hm]
  simp only [ipv6Assign_none]

/-- C3 counterexample: the static read path returns `up = false` together
with a populated `ipv4` block (the no-record default with
`requestmode = 'static'`), so `up = false` does not imply absence of the
`ipv4` field. -/
theorem static_info_up_false_with_ipv4 :
    Except.map (fun i => (i.up, i.ipv4.isSome)) (_get_static_info [] ifaceEth1) =
      Except.ok (false, true) := rfl

/-- C3 amended: the live read path contains an `ipv4` block exactly when
`up = true`, while the static read path always reports `up = false` and
always carries an `ipv4` block. -/
theorem ipv4_presence_by_path :
    (∀ (svc : Service) (i : InterfaceInfo), _get_service_info svc = Except.ok i →
      (i.ipv4.isSome ↔ i.up = true)) ∧
    (∀ (store : ConfigStore) (ifc : Iface) (i : InterfaceInfo),
      _get_static_info store ifc = Except.ok i → i.up = false ∧ i.ipv4.isSome) := by
  constructor
  · intro svc i h
    simp only [_get_service_info] at h
    split at h
    · split at h
      · exact Except.noConfusion h
      · cases h
        simp
    · cases h
      simp
  · intro store ifc i h
    simp only [_get_static_info] at h
    split at h
    · split at h
      · split at h
        · cases h
          exact ⟨rfl, rfl⟩
        · exact Except.noConfusion h
      · exact Except.noConfusion h
    · cases h
      exact ⟨rfl, rfl⟩

/-- C3 witness: both parts instantiated — a live idle service (no ipv4, not
up) and the static default record (up false, ipv4 present). -/
theorem ipv4_presence_by_path_witness :
    (infoIdle.ipv4.isSome ↔ infoIdle.up = true) ∧
    (infoStaticDefault.up = false ∧ infoStaticDefault.ipv4.isSome) :=
  ⟨ipv4_presence_by_path.1 svcIdle infoIdle rfl,
   ipv4_presence_by_path.2 [] ifaceEth1 infoStaticDefault rfl⟩

/-- C4 counterexample: a ready service whose IPv4 `Method` is `off`
(connman's value for unconfigured IPv4) is surfaced with
`requestmode = 'off'`, which is neither of the two enum values — the
translation at src lines 184–187 has no catch-all branch. -/
theorem requestmode_off_passthrough :
    Except.map (fun i => i.ipv4.map (fun b => b.requestmode)) (_get_service_info svcMethodOff) =
      Except.ok (some (some "off")) ∧
    ("off" : String) ≠ "static" ∧ ("off" : String) ≠ "dhcp_linklocal" :=
  ⟨rfl, by decide, by decide⟩

/-- C4 amended: the Method actually translated is that of the property set
the loop reads (`IPv4.Configuration` when the live `IPv4` Method is
`manual`, else `IPv4`); on that value `dhcp` maps to `dhcp_linklocal` and
`manual`/`fixed` map to `static`, while any other Method string passes
through untranslated — so requestmode is not always one of the two enum
values. -/
theorem requestmode_translation (svc : Service) (i : InterfaceInfo) (blk : Ipv4Block)
    (h : _get_service_info svc = Except.ok i) (hb : i.ipv4 = some blk) :
    blk.requestmode = (effectiveIpv4Props svc.props).method.map translateMethod ∧
    translateMethod "dhcp" = "dhcp_linklocal" ∧
    translateMethod "manual" = "static" ∧ translateMethod "fixed" = "static" := by
  refine ⟨?_, by decide, by decide, by decide⟩
  simp only [_get_service_info] at h
  split at h
  · split at h
    · exact Except.noConfusion h
    · cases h
      cases hb
      rfl
  · cases h
    exact Option.noConfusion hb

/-- C4 witness: the dhcp-mode online service `svcEth0` surfaces
`requestmode = 'dhcp_linklocal'`. -/
theorem requestmode_translation_witness :
    blkEth0.requestmode = (effectiveIpv4Props svcEth0.props).method.map translateMethod ∧
    translateMethod "dhcp" = "dhcp_linklocal" ∧
    translateMethod "manual" = "static" ∧ translateMethod "fixed" = "static" :=
  requestmode_translation svcEth0 infoEth0 blkEth0 rfl rfl

/-- C9 counterexample: a ready service exposing an IPv6 `Address` produces a
successful read whose result has no `ipv6` key at all — the value is not
surfaced into an ipv6 block, and the read does not fail either (the
`KeyError` raised by the uninitialized `data['ipv6']` is caught by the
per-field handler and only logged). -/
theorem ipv6_value_dropped :
    svcIpv6.props.ipv6.address = some "fe80::1" ∧
    Except.map (fun i => i.ipv6) (_get_service_info svcIpv6) = Except.ok none :=
  ⟨rfl, rfl⟩

/-- C9 amended: every IPv6 assignment targets the uninitialized
`data['ipv6']` container, whose `KeyError` is caught and logged by the
per-field handler, so a successful read never contains an `ipv6` block; and
the presence of IPv6 properties never makes the read fail — a ready/online
read with a present IPv4 `Method` always succeeds. -/
theorem ipv6_never_populated :
    (∀ (svc : Service) (i : InterfaceInfo),
      _get_service_info svc = Except.ok i → i.ipv6 = none) ∧
    (∀ (svc : Service) (m0 : String),
      (svc.props.state = "ready" ∨ svc.props.state = "online") →
      svc.props.ipv4.method = some m0 →
      ∃ i, _get_service_info svc = Except.ok i) := by
  constructor
  · intro svc i h
    simp only [_get_service_info] at h
    split at h
    · split at h
      · exact Except.noConfusion h
      · cases h
        simp [ipv6Assign_none]
    · cases h
      rfl
  · intro svc m0 hs hm
    exact ⟨_, get_service_info_ready svc m0 hs hm⟩

/-- C9 witness: both parts instantiated at the IPv6-exposing ready service. -/
theorem ipv6_never_populated_witness :
    infoIpv6.ipv6 = none ∧ ∃ i, _get_service_info svcIpv6 = Except.ok i :=
  ⟨ipv6_never_populated.1 svcIpv6 infoIpv6 rfl,
   ipv6_never_populated.2 svcIpv6 "dhcp" (Or.inl rfl) rfl⟩

/-- C10: for every ready/online service read successfully, the returned
`ipv4` block always carries a `gateway` key — pre-initialized to `0.0.0.0`
(src lines 172–174) — and when the effective property set has no `Gateway`
entry the result still reports `gateway = '0.0.0.0'`. -/
theorem ipv4_gateway_always_present (svc : Service) (i : InterfaceInfo)
    (hstate : svc.props.state = "ready" ∨ svc.props.state = "online")
    (h : _get_service_info svc = Except.ok i) :
    ∃ blk, i.ipv4 = some blk ∧ blk.gateway.isSome = true ∧
      ((effectiveIpv4Props svc.props).gateway = none → blk.gateway = some "0.0.0.0") := by
  simp only [_get_service_info] at h
  rw [if_pos hstate] at h
  split at h
  · exact Except.noConfusion h
  · cases h
    refine ⟨_, rfl, rfl, ?_⟩
    intro hg
    rw [hg]
    rfl

/-- C10 witness: `svcEth0` is online with no `Gateway` in its live IPv4
dictionary, and its block reports `gateway = '0.0.0.0'`. -/
theorem ipv4_gateway_always_present_witness :
    ∃ blk, infoEth0.ipv4 = some blk ∧ blk.gateway.isSome = true ∧
      ((effectiveIpv4Props svcEth0.props).gateway = none → blk.gateway = some "0.0.0.0") :=
  ipv4_gateway_always_present svcEth0 infoEth0 (Or.inr rfl) rfl

/-- C7: for a resolved service already connected (state online or ready),
`up` returns success without issuing a connect call, while `down` does issue
a disconnect call and, when the daemon call returns a value, succeeds
exactly when that value is null. -/
theorem up_down_when_connected (d : Daemon) (iface svcName : String) (svc : Service)
    (h1 : _interface_to_service d iface = some svcName) (h2 : svcName ≠ "")
    (h3 : getService d svcName = some svc)
    (h4 : svc.props.state = "online" ∨ svc.props.state = "ready") :
    up d iface = (Except.ok true, false) ∧
    (down d iface).2 = true ∧
    (∀ b, svc.disconnectOutcome = CallOutcome.ret b → (down d iface).1 = Except.ok b) := by
  have hc : _connected svc = true := by
    unfold _connected
    exact decide_eq_true h4
  refine ⟨?_, ?_, ?_⟩
  · simp [up, h1, pyFalsyStr, h2, h3, hc]
  · cases ho : svc.disconnectOutcome with
    | ret b => simp [down, h1, pyFalsyStr, h2, h3, hc, ho]
    | exn m => simp [down, h1, pyFalsyStr, h2, h3, hc, ho]
  · intro b hb
    simp [down, h1, pyFalsyStr, h2, h3, hc, hb]

/-- C7 witness: on `daemonLive` (whose `eth0` service is online and whose
disconnect call returns null), `up` succeeds without a connect call and
`down` issues a disconnect and succeeds. -/
theorem up_down_when_connected_witness :
    up daemonLive "eth0" = (Except.ok true, false) ∧
    (down daemonLive "eth0").2 = true ∧ (down daemonLive "eth0").1 = Except.ok true :=
  ⟨(up_down_when_connected daemonLive "eth0" "ethernet_svc0" svcEth0 rfl (by decide) rfl
      (Or.inl rfl)).1,
   (up_down_when_connected daemonLive "eth0" "ethernet_svc0" svcEth0 rfl (by decide) rfl
      (Or.inl rfl)).2.1,
   (up_down_when_connected daemonLive "eth0" "ethernet_svc0" svcEth0 rfl (by decide) rfl
      (Or.inl rfl)).2.2 true rfl⟩

/-- C8: `_space_delimited_list` accepts every already-structured list
unconditionally, and on a string returns valid exactly when the whitespace
split is nonempty, producing the invalid-list message when it is empty. -/
theorem space_delimited_list_spec :
    (∀ l : List String,
      _space_delimited_list (NsValue.list l) = (true, "space-delimited string")) ∧
    (∀ s : String,
      (_space_delimited_list (NsValue.str s)).1 = !(pySplitWs s).isEmpty ∧
      (pySplitWs s = [] →
        _space_delimited_list (NsValue.str s) = (false, s ++ " is not a valid list.\n"))) := by
  constructor
  · intro l
    rfl
  · intro s
    constructor
    · cases hs : pySplitWs s with
      | nil => simp [_space_delimited_list, hs]
      | cons a t => simp [_space_delimited_list, hs]
    · intro h
      simp [_space_delimited_list, h, nsRepr]

/-- C8 witness: a structured list is valid; the empty string splits to the
empty list and is invalid with the message. -/
theorem space_delimited_list_spec_witness :
    _space_delimited_list (NsValue.list ["8.8.8.8"]) = (true, "space-delimited string") ∧
    (_space_delimited_list (NsValue.str "")).1 = !(pySplitWs "").isEmpty ∧
    _space_delimited_list (NsValue.str "") = (false, "" ++ " is not a valid list.\n") :=
  ⟨space_delimited_list_spec.1 ["8.8.8.8"],
   (space_delimited_list_spec.2 "").1,
   (space_delimited_list_spec.2 "").2 rfl⟩

end NilrtIp
